import Mathlib

/-!
Verification development for the ha-gtfs-rt-v2 reconciliation engine.

The definitions below are a shallow embedding of the Python source:

* `custom_components/gtfs_rt/PublicTransportData.py` — the reconciler
  (`PublicTransportData.update`) and the query layer
  (`PublicTransportData.filter_df`).
* `custom_components/gtfs_rt/sensor.py` — the per-route board builder
  (`PublicTransportData._update_route_statuses`) and its route-id
  canonicalization.
* `custom_components/gtfs_rt/StaticTimetable.py` — the static-feed fetch
  (`get_dataframes`).

Pandas dataframes are modelled as Lists of typed records; a column
operation becomes a per-row function.  Machine time is modelled with
`Int` epoch seconds (`datetime.timestamp()` values); `timedelta(days=1)`
on a naive datetime is modelled as `+ 86400`.  Missing cells (`NaN`)
are `Option`; `Series.fillna` is `Option.getD` / `Option.orElse`;
`Series.mask(lambda x: x == 0)` maps `0` to `none`.  Vehicle latitude /
longitude columns are floating-point pass-through data never used in the
reconciliation arithmetic and are omitted from the row model.
-/

/-- The reference instant of one reconciliation pass.  In the source:
`now = datetime.today()`, `now_secs = now.timestamp()`,
`midnight = datetime.combine(now, datetime.min.time())`. -/
structure Clock where
  nowSecs : Int
  midnightToday : Int
deriving DecidableEq

/-- `secs_since_midnight = (now - midnight).total_seconds()`. -/
def Clock.secsSinceMidnight (c : Clock) : Int :=
  c.nowSecs - c.midnightToday

/-- `midnight_tomorrow = midnight + timedelta(days=1)` (86400 s). -/
def Clock.midnightTomorrow (c : Clock) : Int :=
  c.midnightToday + 86400

/-- One row of the live trip-update dataframe built by `gtfs_data_to_df`
(label `"trip"`): one row per `stop_time_update` entry of a trip-update
entity.  Protobuf scalar defaults make every field present; `0` is the
unset sentinel for the live epoch columns. -/
structure LiveRow where
  trip_id : String
  route_id : String
  direction_id : Int
  stop_id : String
  stop_sequence : Int
  live_arrival_time : Int
  arrival_delay : Int
  live_departure_time : Int
  departure_delay : Int
  /-- `start_date`: epoch seconds of
  `strptime(trip.start_date, "%Y%m%d") + timedelta(days=1)`. -/
  start_date : Int
  vehicle_id : String
deriving DecidableEq

/-- One row of the static per-(trip, stop) timetable
(`StaticMasterGTFSInfo(...).departure_info`): scheduled offsets are
seconds since service-day midnight. -/
structure StaticRow where
  trip_id : String
  route_id : String
  direction_id : Int
  stop_id : String
  stop_sequence : Int
  scheduled_arrival_time : Int
  scheduled_departure_time : Int
deriving DecidableEq

/-- A row of the merged dataframe after the arithmetic in
`PublicTransportData.update`.  The coalesced columns (`stop_id` etc.)
are strings because the source coalesces them via `.astype(str)`. -/
structure ResolvedRow where
  trip_id : String
  stop_id : String
  route_id : String
  direction_id : String
  stop_sequence : String
  real_time_update : Bool
  start_date : Int
  arrival_delay : Int
  live_arrival_time : Option Int
  scheduled_arrival_time : Option Int
  updated_arrival_time : Int
  updated_departure_time : Int
deriving DecidableEq

/-- `pd.merge(live_df, timetable_df, how="outer", on="trip_id")`:
each live row pairs with every static row of the same `trip_id` (or
with no static row when the trip has none), plus one left-empty row for
every static row whose trip has no live row. -/
def liveMatches (sched : List StaticRow) (l : LiveRow) : List StaticRow :=
  sched.filter (fun s => l.trip_id == s.trip_id)

/-- The merged rows a single live row contributes: one per matching
static row, or a right-empty row when its trip has no static rows. -/
def livePairs (sched : List StaticRow) (l : LiveRow) :
    List (Option LiveRow × Option StaticRow) :=
  if (liveMatches sched l).isEmpty then
    [((some l : Option LiveRow), (none : Option StaticRow))]
  else (liveMatches sched l).map (fun s => (some l, some s))

/-- The static rows whose trip has no live row at all. -/
def staticOnly (live : List LiveRow) (sched : List StaticRow) : List StaticRow :=
  sched.filter (fun s => live.all (fun l => !(l.trip_id == s.trip_id)))

def mergeOuter (live : List LiveRow) (sched : List StaticRow) :
    List (Option LiveRow × Option StaticRow) :=
  live.flatMap (livePairs sched)
  ++ (staticOnly live sched).map (fun s => ((none : Option LiveRow), some s))

/-- The `trip_id` column of a merged row (the join key is never
suffixed, so it is present on both sides). -/
def pairTripId : Option LiveRow × Option StaticRow → String
  | (some l, _) => l.trip_id
  | (none, some s) => s.trip_id
  | (none, none) => ""

/-- Column coalescing
`df[col] = df[col + "_x"].astype(str).fillna(df[col + "_y"].astype(str))`:
`.astype(str)` stringifies a missing cell to the literal string `"nan"`,
so the subsequent `fillna` never fires and the `_y` (static) value is
never used.  The result is the live-side value, or `"nan"`. -/
def coalX (x : Option String) : String :=
  match x with
  | some v => v
  | none => "nan"

/-- `start_date` column fill:
`trip_update_df["start_date"].fillna(midnight.timestamp())`. -/
def startDateOf (c : Clock) (p : Option LiveRow × Option StaticRow) : Int :=
  match p.1 with
  | some l => l.start_date
  | none => c.midnightToday

/-- `arrival_delay` column fill:
`trip_update_df["arrival_delay"].fillna(0)`. -/
def arrivalDelayOf (p : Option LiveRow × Option StaticRow) : Int :=
  match p.1 with
  | some l => l.arrival_delay
  | none => 0

/-- `Series.mask(lambda x: x == 0)`: a zero cell becomes missing. -/
def maskZero (x : Option Int) : Option Int :=
  match x with
  | some t => if t = 0 then none else some t
  | none => none

/-- The row-level arithmetic of `PublicTransportData.update` lines
263-310: fill `start_date` and `arrival_delay`, then
`updated_arrival_time = live.mask(==0).fillna(sched + start + arrival_delay).fillna(0)`
and the same for the departure column — which in the source also adds
`arrival_delay`, not `departure_delay`. -/
def buildRowPre (c : Clock) (p : Option LiveRow × Option StaticRow) : ResolvedRow :=
  let startDate := startDateOf c p
  let delay := arrivalDelayOf p
  { trip_id := pairTripId p
    stop_id := coalX (p.1.map (fun l => l.stop_id))
    route_id := coalX (p.1.map (fun l => l.route_id))
    direction_id := coalX (p.1.map (fun l => toString l.direction_id))
    stop_sequence := coalX (p.1.map (fun l => toString l.stop_sequence))
    real_time_update := p.1.isSome
    start_date := startDate
    arrival_delay := delay
    live_arrival_time := p.1.map (fun l => l.live_arrival_time)
    scheduled_arrival_time := p.2.map (fun s => s.scheduled_arrival_time)
    updated_arrival_time :=
      Option.getD
        ((maskZero (p.1.map (fun l => l.live_arrival_time))).orElse
          (fun _ => p.2.map (fun s => s.scheduled_arrival_time + startDate + delay))) 0
    updated_departure_time :=
      Option.getD
        ((maskZero (p.1.map (fun l => l.live_departure_time))).orElse
          (fun _ => p.2.map (fun s => s.scheduled_departure_time + startDate + delay))) 0 }

/-- Day rollover, lines 312-325: rows masked by
`updated_arrival_time < secs_since_midnight` get
`start_date = midnight_tomorrow` and
`updated_arrival_time = midnight_tomorrow + scheduled_arrival_time`;
`DataFrame.update` skips missing cells, so a row without a scheduled
time keeps its arrival value. -/
def rolloverRow (c : Clock) (r : ResolvedRow) : ResolvedRow :=
  if r.updated_arrival_time < c.secsSinceMidnight then
    { r with
      start_date := c.midnightTomorrow
      updated_arrival_time :=
        match r.scheduled_arrival_time with
        | some s => c.midnightTomorrow + s
        | none => r.updated_arrival_time }
  else r

/-- The reconciliation pass of `PublicTransportData.update`: outer-merge
live and static rows on `trip_id`, resolve times, apply the rollover,
then drop rows via `query("updated_arrival_time - now_secs >= 0")`.
The result is stored as `self.info_df` (the published board). -/
def updateBoard (c : Clock) (live : List LiveRow) (sched : List StaticRow) :
    List ResolvedRow :=
  (((mergeOuter live sched).map (buildRowPre c)).map (rolloverRow c)).filter
    (fun r => decide (0 ≤ r.updated_arrival_time - c.nowSecs))

/-!
## Query layer: `PublicTransportData.filter_df`

`filter_df` builds a pandas query string joining, with `and`, one
equality clause per criterion whose value passes the guard
`if value is not None or ""`.  By Python precedence this guard is
`(value is not None) or ""`, and `""` is falsy, so it is equivalent to
`value is not None`: an empty-string value is NOT skipped — it becomes a
real `column == ''` clause.  The filtered frame is then sorted by the
`order_by` column and truncated with `head(limit)`.  A criterion value
is a string or a number; the categorical `.astype(...)` casts in the
query string only serve to make `==` compare values, which is what the
model's equality does directly.
-/

/-- A cell value usable in a `filter_df` criteria dictionary. -/
inductive FVal
  | s (v : String)
  | i (v : Int)
  | b (v : Bool)
deriving DecidableEq

/-- Field access on a board row by pandas column name (unknown columns
never occur in the source's queries; they default to an empty
string). -/
def ResolvedRow.field (r : ResolvedRow) (k : String) : FVal :=
  if k = "trip_id" then .s r.trip_id
  else if k = "stop_id" then .s r.stop_id
  else if k = "route_id" then .s r.route_id
  else if k = "direction_id" then .s r.direction_id
  else if k = "stop_sequence" then .s r.stop_sequence
  else if k = "real_time_update" then .b r.real_time_update
  else if k = "start_date" then .i r.start_date
  else if k = "arrival_delay" then .i r.arrival_delay
  else if k = "updated_arrival_time" then .i r.updated_arrival_time
  else if k = "updated_departure_time" then .i r.updated_departure_time
  else .s ""

/-- The conjunction of equality clauses `filter_df` emits: a criterion
is included iff its value `is not None` (the `or ""` in the source's
guard is dead code). -/
def rowMatches (filters : List (String × Option FVal)) (get : String → FVal) : Bool :=
  filters.all (fun kv =>
    match kv.2 with
    | none => true
    | some v => get kv.1 == v)

/-- Modelled from the spec: the matching rule of §4.4 — "a record
matches iff every criterion with a non-empty/non-nil value equals the
record's corresponding field; criteria omitted or empty impose no
constraint".  Stated only to compare with `rowMatches`, the rule the
source implements. -/
def specMatches (filters : List (String × Option FVal)) (get : String → FVal) : Bool :=
  filters.all (fun kv =>
    match kv.2 with
    | none => true
    | some (FVal.s "") => true
    | some v => get kv.1 == v)

/-- Insert into a sorted list (the helper of `sortBy`). -/
def insertSorted (le : α → α → Bool) (a : α) : List α → List α
  | [] => [a]
  | b :: l => if le a b then a :: b :: l else b :: insertSorted le a l

/-- A stable insertion sort modelling `DataFrame.sort_values` /
`list.sort(key=...)` (both are stable sorts; the claims depend only on
sortedness and membership). -/
def sortBy (le : α → α → Bool) : List α → List α
  | [] => []
  | a :: l => insertSorted le a (sortBy le l)

/-- Sortedness of a list under a boolean comparator. -/
def SortedB (le : α → α → Bool) (l : List α) : Prop :=
  l.Pairwise (fun x y => le x y = true)

/-- The comparator `sort_values(by=[order_by], ascending=...)` uses,
for a numeric `order_by` column selected by `k`. -/
def orderLe (k : ResolvedRow → Int) (asc : Bool) (a b : ResolvedRow) : Bool :=
  if asc then decide (k a ≤ k b) else decide (k b ≤ k a)

/-- `PublicTransportData.filter_df`: keep the rows matching the query
string, sort by the `order_by` column, truncate to `limit`
(`head(limit)`). -/
def filter_df (board : List ResolvedRow) (filters : List (String × Option FVal))
    (k : ResolvedRow → Int) (asc : Bool) (limit : Nat) : List ResolvedRow :=
  (sortBy (orderLe k asc) (board.filter (fun r => rowMatches filters r.field))).take limit

/-!
## Route-id canonicalization (`sensor.py`, `_update_route_statuses`)

The source, with a configured delimiter:
`route_id_split = this_route_id.split(delim)` and then
`route_id = this_route_id if route_id_split[0] == delim else route_id_split[0]`.
Route ids are modelled as `List Char`; `split(delim)[0]` is the text
before the first occurrence of the delimiter (the whole string when the
delimiter does not occur).
-/

/-- Python `needle == haystack[:len(needle)]`: boolean test that one
character list starts the other. -/
def isPre : List Char → List Char → Bool
  | [], _ => true
  | _ :: _, [] => false
  | a :: l, b :: m => a == b && isPre l m

/-- `s.split(d)[0]` for a non-empty separator `d`: the text before the
first occurrence of `d`, or all of `s` when `d` does not occur. -/
def firstTok (d : List Char) : List Char → List Char
  | [] => []
  | c :: rest => if isPre d (c :: rest) then [] else c :: firstTok d rest

/-- The canonical route id computed in `_update_route_statuses`
lines 386-392: keep the raw id when the first split token equals the
delimiter itself, otherwise use the first token. -/
def canonicalRouteId (d s : List Char) : List Char :=
  if firstTok d s = d then s else firstTok d s

/-!
## Per-route board (`sensor.py`, `_update_route_statuses`)

The sensor-side board is a nested dict
`departure_times[route_id][direction_id][stop_id] -> list of StopDetails`
built from the trip-update feed, then each list is sorted by
`arrival_time`.  A vehicle position is attached by
`vehicle_positions.get(trip_id)` untouched, so its payload is
irrelevant to the claims and carried opaquely.
-/

/-- A vehicle position payload (`vehicle.position`), stored by
`_get_vehicle_positions` under the trip id and attached untouched.
Coordinates are floating-point pass-through; integers stand in for
them. -/
structure VehPos where
  latitude : Int
  longitude : Int
deriving DecidableEq

/-- One `stop_time_update` entry of a trip-update entity. -/
structure FeedStop where
  stop_id : String
  stop_sequence : Int
  arrival_time : Int
  arrival_delay : Int
deriving DecidableEq

/-- One trip-update entity as used by `_update_route_statuses`;
`start_date_epoch` is `datetime.timestamp(strptime(start_date, "%Y%m%d"))`. -/
structure FeedTrip where
  trip_id : String
  route_id : String
  direction_id : Int
  start_date_epoch : Int
  stops : List FeedStop
deriving DecidableEq

/-- The record appended to the nested board dict. -/
structure StopDetails where
  arrival_time : Int
  position : Option VehPos
deriving DecidableEq

/-- `vehicle_positions.get(trip_id)`. -/
def lookupPos (l : List (String × VehPos)) (tid : String) : Option VehPos :=
  (l.find? (fun kv => kv.1 == tid)).map (fun kv => kv.2)

/-- `due_in_mins`: `int(diff.total_seconds() / 60)` — `int()` truncates
toward zero, which is `Int.tdiv`. -/
def due_in_mins (now t : Int) : Int :=
  Int.tdiv (t - now) 60

/-- Route-id canonicalization applied per entity when a delimiter is
configured (`self._route_delimiter is not None`). -/
def canonicalRoute (delim : Option String) (rid : String) : String :=
  match delim with
  | none => rid
  | some d => String.mk (canonicalRouteId d.toList rid.toList)

/-- The per-stop arrival computation of `_update_route_statuses` lines
428-510: look up the scheduled arrival in
`static_departure_info[this_route_id][direction_id][stop_id]`
(`KeyError` gives `0`); when the live arrival epoch is `0` use
`scheduled + timestamp(start_date)`, else the live epoch; add the
arrival delay; keep the entry iff `due_in_mins(...) >= 0`.  The static
lookup uses the raw (un-canonicalized) route id, as in the source.  The
result is the flat list of
`(route_id, direction_id, stop_id, StopDetails)` appends, in feed
order. -/
def boardEntries (delim : Option String)
    (static_departure_info : String → Int → String → Option Int)
    (vehicle_positions : List (String × VehPos)) (now : Int)
    (trips : List FeedTrip) : List (String × Int × String × StopDetails) :=
  trips.flatMap (fun tr =>
    let rid := canonicalRoute delim tr.route_id
    tr.stops.filterMap (fun st =>
      let scheduled_arrival_time :=
        (static_departure_info tr.route_id tr.direction_id st.stop_id).getD 0
      let stop_time :=
        (if st.arrival_time = 0 then scheduled_arrival_time + tr.start_date_epoch
         else st.arrival_time) + st.arrival_delay
      if 0 ≤ due_in_mins now stop_time then
        some (rid, tr.direction_id, st.stop_id,
              { arrival_time := stop_time
                position := lookupPos vehicle_positions tr.trip_id })
      else none))

/-- The comparator of the final per-list sort
(`sort(key=lambda t: t.arrival_time)`). -/
def leArr (a b : StopDetails) : Bool :=
  decide (a.arrival_time ≤ b.arrival_time)

/-- `_update_route_statuses` board access: the StopDetails list stored
under `[route][direction][stop]` after the sorting pass.  The dict
grouping keeps feed order within a key (modelled by `filter`), and
each list is then sorted by arrival time. -/
def update_route_statuses (delim : Option String)
    (static_departure_info : String → Int → String → Option Int)
    (vehicle_positions : List (String × VehPos)) (now : Int)
    (trips : List FeedTrip) (route : String) (direction : Int) (stop : String) :
    List StopDetails :=
  sortBy leArr
    (((boardEntries delim static_departure_info vehicle_positions now trips).filter
        (fun e => e.1 == route && e.2.1 == direction && e.2.2.1 == stop)).map
      (fun e => e.2.2.2))

/-!
## Poll-cycle error model (`get_gtfs_feed_entities`, `get_dataframes`,
`PublicTransportData.update`)

There is no `try`/`except` anywhere on the poll path, so any exception
raised by a fetch or parse propagates out of `update()`; the board
attribute `self.info_df` is assigned only at the very end of
`update()`, so the previously published board object is what remains on
failure.  Fetch outcomes (timeout / HTTP status with a decodable or
malformed body) are the inputs of the model; the wire decoding itself
is an excluded collaborator, so a decodable body carries its decoded
rows directly.
-/

/-- An exception escaping the poll path: `requests` timeout, protobuf
`DecodeError`, or `zipfile.BadZipFile`. -/
inductive FetchErr
  | timeout
  | decodeError
  | badZip
deriving DecidableEq

/-- The body of an HTTP response: decodable into rows, or malformed. -/
inductive Body (α : Type)
  | ok (rows : List α)
  | malformed
deriving DecidableEq

/-- Outcome of one `requests.get`. -/
inductive FetchOutcome (α : Type)
  | timeout
  | response (status : Nat) (body : Body α)
deriving DecidableEq

/-- A log line with its level. -/
inductive LogEntry
  | debug (msg : String)
  | info (msg : String)
  | error (msg : String)
deriving DecidableEq

/-- True iff the entry was logged at error level. -/
def isErrorLog : LogEntry → Bool
  | .error _ => true
  | _ => false

/-- Vehicle-position rows decoded by `gtfs_data_to_df`
(label `"vehicle"`); only in-service vehicles are kept, and the rows
are left-merged into the live frame as pass-through columns the
reconciliation arithmetic never reads, so the payload beyond the ids is
omitted. -/
structure VehRow where
  trip_id : String
  vehicle_id : String
deriving DecidableEq

/-- `get_gtfs_feed_entities` (PublicTransportData.py lines 14-43):
`requests.get` raises on timeout before anything is logged; otherwise
the status is logged (info on 200, error otherwise) and
`ParseFromString` is attempted on the body regardless of status. -/
def get_gtfs_feed_entities (label : String) (o : FetchOutcome α) :
    List LogEntry × Except FetchErr (List α) :=
  match o with
  | .timeout => ([], .error .timeout)
  | .response status body =>
    let logs :=
      [LogEntry.debug ("Getting " ++ label ++ " info from API...")]
      ++ (if status == 200 then [LogEntry.info ("Successfully updated " ++ label)]
          else [LogEntry.error ("Updating " ++ label ++ " got")])
    match body with
    | .ok rows => (logs, .ok rows)
    | .malformed => (logs, .error .decodeError)

/-- `get_dataframes` (StaticTimetable.py lines 260-287): one info log,
then `requests.get` (raises on timeout), then a success log issued
whatever the status, then `zipfile` / `read_csv` (raise on a malformed
archive). -/
def get_dataframes (o : FetchOutcome StaticRow) :
    List LogEntry × Except FetchErr (List StaticRow) :=
  match o with
  | .timeout => ([LogEntry.info "Requesting GTFS static data..."], .error .timeout)
  | .response _ body =>
    let logs := [LogEntry.info "Requesting GTFS static data...",
                 LogEntry.info "Request zip file successful"]
    match body with
    | .ok rows =>
      (logs ++ [LogEntry.info "Creating dataframes from source data...",
                LogEntry.info "Dataframes created."], .ok rows)
    | .malformed => (logs, .error .badZip)

/-- Result of one call of `PublicTransportData.update`: the published
board (`self.info_df` afterwards), the log lines emitted, and the
exception that escaped the call, if any. -/
structure PollResult where
  board : List ResolvedRow
  logs : List LogEntry
  escaped : Option FetchErr
deriving DecidableEq

/-- One poll cycle (`PublicTransportData.update`): fetch the static
archive, then the trip feed, then the vehicle feed, and reconcile; the
first failure escapes the call and `self.info_df` keeps its previous
value.  The vehicle rows are left-merged pass-through columns, not read
by the time arithmetic. -/
def pollCycle (c : Clock) (prevBoard : List ResolvedRow)
    (staticF : FetchOutcome StaticRow) (tripF : FetchOutcome LiveRow)
    (vehF : FetchOutcome VehRow) : PollResult :=
  match (get_dataframes staticF).2 with
  | .error e =>
    { board := prevBoard, logs := (get_dataframes staticF).1, escaped := some e }
  | .ok sched =>
    match (get_gtfs_feed_entities "trip data" tripF).2 with
    | .error e =>
      { board := prevBoard
        logs := (get_dataframes staticF).1 ++ (get_gtfs_feed_entities "trip data" tripF).1
        escaped := some e }
    | .ok live =>
      match (get_gtfs_feed_entities "vehicle positions" vehF).2 with
      | .error e =>
        { board := prevBoard
          logs := (get_dataframes staticF).1
                  ++ (get_gtfs_feed_entities "trip data" tripF).1
                  ++ (get_gtfs_feed_entities "vehicle positions" vehF).1
          escaped := some e }
      | .ok _ =>
        { board := updateBoard c live sched
          logs := (get_dataframes staticF).1
                  ++ (get_gtfs_feed_entities "trip data" tripF).1
                  ++ (get_gtfs_feed_entities "vehicle positions" vehF).1
          escaped := none }

/-!
## Concrete instances used by witnesses and counterexamples
-/

/-- A reference instant: now = 1700030000, midnight of the day =
1700000000 (so 30000 s past midnight). -/
def clk0 : Clock :=
  { nowSecs := 1700030000, midnightToday := 1700000000 }

/-- Live stop-time row with no live epochs, arrival delay 120 s, and a
declared start date at epoch 1700000000. -/
def l0 : LiveRow :=
  { trip_id := "T1", route_id := "R1", direction_id := 0, stop_id := "S1"
    stop_sequence := 1, live_arrival_time := 0, arrival_delay := 120
    live_departure_time := 0, departure_delay := 120
    start_date := 1700000000, vehicle_id := "V1" }

/-- Static row for the same (trip, stop) with scheduled arrival offset
29700 s (08:15:00). -/
def s0 : StaticRow :=
  { trip_id := "T1", route_id := "R1", direction_id := 0, stop_id := "S1"
    stop_sequence := 1, scheduled_arrival_time := 29700
    scheduled_departure_time := 29760 }

/-- Live stop-time row whose arrival delay (120 s) and departure delay
(60 s) differ, with no live departure epoch. -/
def l2 : LiveRow :=
  { trip_id := "T2", route_id := "R2", direction_id := 0, stop_id := "S2"
    stop_sequence := 1, live_arrival_time := 0, arrival_delay := 120
    live_departure_time := 0, departure_delay := 60
    start_date := 1700000000, vehicle_id := "V2" }

/-- Static row for the (trip, stop) of `l2`. -/
def s2 : StaticRow :=
  { trip_id := "T2", route_id := "R2", direction_id := 0, stop_id := "S2"
    stop_sequence := 1, scheduled_arrival_time := 29700
    scheduled_departure_time := 29760 }

/-- Live stop-time row with a live arrival epoch of 1700010000 — in the
past relative to `clk0` (now 1700030000). -/
def l3 : LiveRow :=
  { trip_id := "T3", route_id := "R3", direction_id := 0, stop_id := "S3"
    stop_sequence := 1, live_arrival_time := 1700010000, arrival_delay := 0
    live_departure_time := 0, departure_delay := 0
    start_date := 1700000000, vehicle_id := "V3" }

/-- Static row for the (trip, stop) of `l3`. -/
def s3 : StaticRow :=
  { trip_id := "T3", route_id := "R3", direction_id := 0, stop_id := "S3"
    stop_sequence := 1, scheduled_arrival_time := 10000
    scheduled_departure_time := 10060 }

/-- Static-only row with scheduled arrival offset 40000 s, in the
future relative to `clk0`. -/
def s4 : StaticRow :=
  { trip_id := "T4", route_id := "R4", direction_id := 0, stop_id := "S4"
    stop_sequence := 1, scheduled_arrival_time := 40000
    scheduled_departure_time := 40060 }

/-- The board row `updateBoard clk0 [] [s4]` produces from `s4`. -/
def r4 : ResolvedRow :=
  { trip_id := "T4", stop_id := "nan", route_id := "nan"
    direction_id := "nan", stop_sequence := "nan", real_time_update := false
    start_date := 1700000000, arrival_delay := 0
    live_arrival_time := none, scheduled_arrival_time := some 40000
    updated_arrival_time := 1700040000, updated_departure_time := 1700040060 }

/-- Live row for trip `"T"` at stop `"A"` with a future live arrival. -/
def lA : LiveRow :=
  { trip_id := "T", route_id := "R", direction_id := 0, stop_id := "A"
    stop_sequence := 1, live_arrival_time := 1700040000, arrival_delay := 0
    live_departure_time := 0, departure_delay := 0
    start_date := 1700000000, vehicle_id := "V" }

/-- Static row for the same trip `"T"` but at a different stop `"B"`. -/
def sB : StaticRow :=
  { trip_id := "T", route_id := "R", direction_id := 0, stop_id := "B"
    stop_sequence := 2, scheduled_arrival_time := 40000
    scheduled_departure_time := 40060 }

/-- A board row whose `route_id` is `"42"`. -/
def r7 : ResolvedRow :=
  { trip_id := "T7", stop_id := "S7", route_id := "42"
    direction_id := "0", stop_sequence := "1", real_time_update := true
    start_date := 1700000000, arrival_delay := 0
    live_arrival_time := some 1700040000, scheduled_arrival_time := none
    updated_arrival_time := 1700040000, updated_departure_time := 1700040000 }

/-- A criteria dictionary carrying one criterion whose value is the
empty string. -/
def f7 : List (String × Option FVal) :=
  [("route_id", some (FVal.s ""))]

/-- A successful static fetch with an empty table set. -/
def sfOk : FetchOutcome StaticRow :=
  .response 200 (.ok [])

/-- A successful vehicle-position fetch with no entities. -/
def vfOk : FetchOutcome VehRow :=
  .response 200 (.ok [])

/-- A previously published board. -/
def prev9 : List ResolvedRow :=
  [r7]

/-- A trip-update entity with two stop-time updates for the same stop,
arriving out of order (1700050000 then 1700040000). -/
def ft10 : FeedTrip :=
  { trip_id := "T", route_id := "R", direction_id := 0
    start_date_epoch := 1700000000
    stops := [{ stop_id := "S", stop_sequence := 1
                arrival_time := 1700050000, arrival_delay := 0 },
              { stop_id := "S", stop_sequence := 2
                arrival_time := 1700040000, arrival_delay := 0 }] }

/-- An empty static schedule lookup (every key raises `KeyError`). -/
def lookup0 : String → Int → String → Option Int :=
  fun _ _ _ => none

/-- The earlier of `ft10`'s two stop entries. -/
def sd0 : StopDetails :=
  { arrival_time := 1700040000, position := none }

/-- The later of `ft10`'s two stop entries. -/
def sd1 : StopDetails :=
  { arrival_time := 1700050000, position := none }

/-!
## Helper lemmas
-/

/-- Membership through `insertSorted`. -/
theorem mem_insertSorted (le : α → α → Bool) (a x : α) :
    ∀ l : List α, x ∈ insertSorted le a l ↔ x = a ∨ x ∈ l := by
  intro l
  induction l with
  | nil => simp [insertSorted]
  | cons b t ih =>
    by_cases h : le a b = true
    · simp [insertSorted, h]
    · simp only [insertSorted, h, if_false, Bool.false_eq_true, if_neg, List.mem_cons, ih]
      tauto

/-- `sortBy` is a permutation-level identity on membership. -/
theorem mem_sortBy (le : α → α → Bool) (x : α) :
    ∀ l : List α, x ∈ sortBy le l ↔ x ∈ l := by
  intro l
  induction l with
  | nil => simp [sortBy]
  | cons a t ih => simp [sortBy, mem_insertSorted, ih]

/-- Inserting into a sorted list keeps it sorted, for a total,
transitive boolean comparator. -/
theorem sortedB_insertSorted (le : α → α → Bool)
    (htot : ∀ a b, le a b = false → le b a = true)
    (htr : ∀ a b c, le a b = true → le b c = true → le a c = true)
    (a : α) : ∀ l, SortedB le l → SortedB le (insertSorted le a l) := by
  intro l
  induction l with
  | nil => intro _; simp [insertSorted, SortedB]
  | cons b t ih =>
    intro hs
    rw [SortedB, List.pairwise_cons] at hs
    by_cases h : le a b = true
    · rw [insertSorted, if_pos h, SortedB, List.pairwise_cons]
      constructor
      · intro x hx
        rcases List.mem_cons.1 hx with rfl | hx'
        · exact h
        · exact htr a b x h (hs.1 x hx')
      · exact List.pairwise_cons.2 hs
    · have hf : le a b = false := by
        cases hab : le a b
        · rfl
        · exact absurd hab h
      rw [insertSorted, if_neg h, SortedB, List.pairwise_cons]
      constructor
      · intro x hx
        rcases (mem_insertSorted le a x t).1 hx with h1 | hx'
        · rw [h1]
          exact htot a b hf
        · exact hs.1 x hx'
      · exact ih hs.2

/-- `sortBy` sorts, for a total, transitive boolean comparator. -/
theorem sortedB_sortBy (le : α → α → Bool)
    (htot : ∀ a b, le a b = false → le b a = true)
    (htr : ∀ a b c, le a b = true → le b c = true → le a c = true) :
    ∀ l : List α, SortedB le (sortBy le l) := by
  intro l
  induction l with
  | nil => simp [sortBy, SortedB]
  | cons a t ih => exact sortedB_insertSorted le htot htr a _ ih

/-- Every row of the published board passed the past-time filter
`query("updated_arrival_time - now_secs >= 0")`. -/
theorem updateBoard_now_le (c : Clock) (live : List LiveRow)
    (sched : List StaticRow) (r : ResolvedRow)
    (hr : r ∈ updateBoard c live sched) :
    c.nowSecs ≤ r.updated_arrival_time := by
  unfold updateBoard at hr
  have h := (List.mem_filter.1 hr).2
  rw [decide_eq_true_eq] at h
  omega

/-- Every live row contributes at least one merged row carrying its
trip id. -/
theorem exists_mem_livePairs (sched : List StaticRow) (l : LiveRow) :
    ∃ q ∈ livePairs sched l, pairTripId q = l.trip_id := by
  unfold livePairs
  by_cases h : (liveMatches sched l).isEmpty
  · rw [if_pos h]
    exact ⟨(some l, none), List.mem_singleton.2 rfl, rfl⟩
  · rw [if_neg h]
    have hne : liveMatches sched l ≠ [] := by
      intro hnil
      rw [hnil] at h
      exact h rfl
    obtain ⟨s, hs⟩ := List.exists_mem_of_ne_nil _ hne
    exact ⟨(some l, some s), List.mem_map_of_mem _ hs, rfl⟩

/-!
## Claim theorems
-/

/-- C1. Arrival resolution: for every merged (trip, stop) row, a
present, non-zero live arrival epoch is used unchanged (no delay
re-added); otherwise, when a scheduled offset is present,
`updated_arrival_time = scheduled_arrival_offset + midnight_epoch(service_date) + arrival_delay`,
where the service-date midnight epoch is the live row's `start_date`
(today's midnight when absent) and the delay defaults to 0 when
absent. -/
theorem C1_arrival_resolution (c : Clock) (p : Option LiveRow × Option StaticRow) :
    (∀ l : LiveRow, p.1 = some l → l.live_arrival_time ≠ 0 →
      (buildRowPre c p).updated_arrival_time = l.live_arrival_time)
    ∧ (∀ s : StaticRow, p.2 = some s →
        (p.1 = none ∨ ∃ l : LiveRow, p.1 = some l ∧ l.live_arrival_time = 0) →
        (buildRowPre c p).updated_arrival_time
          = s.scheduled_arrival_time + startDateOf c p + arrivalDelayOf p)
    ∧ (p.1 = none → startDateOf c p = c.midnightToday ∧ arrivalDelayOf p = 0)
    ∧ (∀ l : LiveRow, p.1 = some l →
        startDateOf c p = l.start_date ∧ arrivalDelayOf p = l.arrival_delay) := by
  obtain ⟨p1, p2⟩ := p
  refine ⟨?_, ?_, ?_, ?_⟩
  · intro l hl hne
    subst hl
    simp [buildRowPre, maskZero, Option.orElse, hne]
  · intro s hs hcase
    subst hs
    rcases hcase with hnone | ⟨l, hl, hz⟩
    · subst hnone
      simp [buildRowPre, maskZero, Option.orElse]
    · subst hl
      simp [buildRowPre, maskZero, Option.orElse, hz]
  · intro hnone
    subst hnone
    exact ⟨rfl, rfl⟩
  · intro l hl
    subst hl
    exact ⟨rfl, rfl⟩

/-- Witness for C1 at the spec's worked example: scheduled offset
29700, service-day midnight 1700000000, delay 120, live arrival epoch
0 (unset) ⇒ 1700029820. -/
theorem C1_arrival_resolution_witness :
    (buildRowPre clk0 ((some l0 : Option LiveRow), (some s0 : Option StaticRow))).updated_arrival_time
      = 1700029820 :=
  Eq.trans
    ((C1_arrival_resolution clk0 (some l0, some s0)).2.1 s0 rfl
      (Or.inr ⟨l0, rfl, rfl⟩))
    (by decide)

/-- C2. The source computes `updated_departure_time` from
`arrival_delay`, not `departure_delay` (`PublicTransportData.update`
line 308): at a merged row with arrival delay 120 s, departure delay
60 s and no live departure epoch, the code yields
`scheduled_departure + start_date + 120`, not `... + 60` as the claim
requires. -/
theorem C2_departure_uses_arrival_delay :
    l2.arrival_delay = 120 ∧ l2.departure_delay = 60
    ∧ (buildRowPre clk0 ((some l2 : Option LiveRow), (some s2 : Option StaticRow))).updated_departure_time
        = s2.scheduled_departure_time + l2.start_date + l2.arrival_delay
    ∧ (buildRowPre clk0 ((some l2 : Option LiveRow), (some s2 : Option StaticRow))).updated_departure_time
        ≠ s2.scheduled_departure_time + l2.start_date + l2.departure_delay := by
  decide

/-- C3. The rollover mask compares the resolved arrival EPOCH against
`secs_since_midnight` (line 315), not against `now`: a live arrival at
epoch 1700010000, 20000 s in the past at `now = 1700030000`, is not
re-projected onto tomorrow (the mask `1700010000 < 30000` is false);
the row is then dropped by the past filter instead of appearing with
tomorrow's schedule. -/
theorem C3_rollover_compares_secs_since_midnight :
    mergeOuter [l3] [s3] = [((some l3 : Option LiveRow), (some s3 : Option StaticRow))]
    ∧ (buildRowPre clk0 (some l3, some s3)).updated_arrival_time < clk0.nowSecs
    ∧ rolloverRow clk0 (buildRowPre clk0 (some l3, some s3))
        = buildRowPre clk0 (some l3, some s3)
    ∧ updateBoard clk0 [l3] [s3] = [] := by
  decide

/-- C4. Sentinel-free invariant: every record the reconciliation pass
publishes satisfies the past filter, so (for any positive reference
instant) its `updated_arrival_time` is at least `now` and in
particular never the sentinel 0. -/
theorem C4_no_sentinel_leaves_reconciler (c : Clock) (live : List LiveRow)
    (sched : List StaticRow) (r : ResolvedRow)
    (h0 : 0 < c.nowSecs) (hr : r ∈ updateBoard c live sched) :
    c.nowSecs ≤ r.updated_arrival_time ∧ r.updated_arrival_time ≠ 0 := by
  have h := updateBoard_now_le c live sched r hr
  exact ⟨h, by omega⟩

/-- Witness for C4 on a concrete pass over one static row. -/
theorem C4_no_sentinel_leaves_reconciler_witness :
    clk0.nowSecs ≤ r4.updated_arrival_time ∧ r4.updated_arrival_time ≠ 0 :=
  C4_no_sentinel_leaves_reconciler clk0 [] [s4] r4 (by decide) (by decide)

/-- C5 counterexample. The merge is on `trip_id` alone, not on
(trip_id, stop_id): with a live row for (trip "T", stop "A") and a
static row for (trip "T", stop "B"), the pairing ("T", "B") appears in
the static source but no merged row — before or after filtering —
carries stop "B" (the single merged row coalesces the live stop
"A"). -/
theorem C5_counterexample :
    lA.trip_id = "T" ∧ lA.stop_id = "A" ∧ sB.trip_id = "T" ∧ sB.stop_id = "B"
    ∧ (mergeOuter [lA] [sB]).length = 1
    ∧ ((mergeOuter [lA] [sB]).map (buildRowPre clk0)).all
        (fun r => !(r.stop_id == "B")) = true
    ∧ (updateBoard clk0 [lA] [sB]).length = 1
    ∧ (updateBoard clk0 [lA] [sB]).all (fun r => !(r.stop_id == "B")) = true := by
  decide

/-- C5 amended. Trip-level outer-join membership: the merged frame
contains a row with trip id `t` iff `t` occurs in the live feed or in
the static snapshot; a trip id in neither source never appears. -/
theorem C5_trip_level_outer_join (live : List LiveRow) (sched : List StaticRow)
    (tid : String) :
    (∃ p ∈ mergeOuter live sched, pairTripId p = tid) ↔
      ((∃ l ∈ live, l.trip_id = tid) ∨ (∃ s ∈ sched, s.trip_id = tid)) := by
  constructor
  · rintro ⟨p, hp, htid⟩
    rw [mergeOuter, List.mem_append] at hp
    rcases hp with h | h
    · obtain ⟨l, hl, hpl⟩ := List.mem_flatMap.1 h
      rw [livePairs] at hpl
      by_cases he : (liveMatches sched l).isEmpty
      · rw [if_pos he] at hpl
        rw [List.mem_singleton] at hpl
        subst hpl
        exact Or.inl ⟨l, hl, htid⟩
      · rw [if_neg he] at hpl
        obtain ⟨s, _, hps⟩ := List.mem_map.1 hpl
        subst hps
        exact Or.inl ⟨l, hl, htid⟩
    · obtain ⟨s, hs, hps⟩ := List.mem_map.1 h
      subst hps
      exact Or.inr ⟨s, (List.mem_filter.1 hs).1, htid⟩
  · rintro (⟨l, hl, rfl⟩ | ⟨s, hs, rfl⟩)
    · obtain ⟨q, hq, hqt⟩ := exists_mem_livePairs sched l
      refine ⟨q, ?_, hqt⟩
      rw [mergeOuter, List.mem_append]
      exact Or.inl (List.mem_flatMap.2 ⟨l, hl, hq⟩)
    · by_cases hml : ∃ l ∈ live, l.trip_id = s.trip_id
      · obtain ⟨l, hl, hlt⟩ := hml
        have hsm : s ∈ liveMatches sched l := by
          rw [liveMatches, List.mem_filter]
          exact ⟨hs, by simp [hlt]⟩
        have hne : ¬(liveMatches sched l).isEmpty = true := by
          intro he
          rw [List.isEmpty_iff] at he
          rw [he] at hsm
          exact (List.not_mem_nil s) hsm
        refine ⟨(some l, some s), ?_, hlt⟩
        rw [mergeOuter, List.mem_append]
        refine Or.inl (List.mem_flatMap.2 ⟨l, hl, ?_⟩)
        rw [livePairs, if_neg hne]
        exact List.mem_map_of_mem _ hsm
      · refine ⟨(none, some s), ?_, rfl⟩
        rw [mergeOuter, List.mem_append]
        refine Or.inr (List.mem_map_of_mem _ ?_)
        rw [staticOnly, List.mem_filter]
        refine ⟨hs, ?_⟩
        rw [List.all_eq_true]
        intro l hl
        simp only [Bool.not_eq_true']
        rw [beq_eq_false_iff_ne]
        intro hlt
        exact hml ⟨l, hl, hlt⟩

/-- C6. No past departures in query results: the board handed to
`filter_df` was filtered by `query("updated_arrival_time - now_secs >= 0")`
inside the same reconciliation pass (strict drop of `< now`, before any
sorting), so every record a query returns has
`updated_arrival_time >= now`, the pass's reference instant. -/
theorem C6_no_past_in_query_results (c : Clock) (live : List LiveRow)
    (sched : List StaticRow) (filters : List (String × Option FVal))
    (k : ResolvedRow → Int) (asc : Bool) (limit : Nat) (r : ResolvedRow)
    (hr : r ∈ filter_df (updateBoard c live sched) filters k asc limit) :
    c.nowSecs ≤ r.updated_arrival_time := by
  rw [filter_df] at hr
  have h1 := List.take_subset _ _ hr
  rw [mem_sortBy] at h1
  exact updateBoard_now_le c live sched r (List.mem_filter.1 h1).1

/-- Witness for C6: a concrete unfiltered query over a one-row pass. -/
theorem C6_no_past_in_query_results_witness :
    clk0.nowSecs ≤ r4.updated_arrival_time :=
  C6_no_past_in_query_results clk0 [] [s4] []
    (fun r => r.updated_arrival_time) true 30 r4 (by decide)

/-- C7. The guard `if value is not None or ""` in `filter_df` is
`(value is not None) or ""`, i.e. `value is not None`: a criterion
whose value is the empty string is NOT skipped and becomes the clause
`route_id == ''`, so a record the claim's rule matches (empty value =
no constraint) is excluded by the code. -/
theorem C7_empty_criterion_constrains :
    r7.route_id = "42"
    ∧ specMatches f7 r7.field = true
    ∧ rowMatches f7 r7.field = false
    ∧ filter_df [r7] f7 (fun r => r.updated_arrival_time) true 30 = [] := by
  decide

/-- C8 counterexample. A raw route id that starts with the delimiter is
NOT kept unchanged: with delimiter "-", the raw id "-ABC" splits to a
first token "" — and the source's guard compares that token with the
delimiter itself, which never matches — so the canonical id is the
empty string, not "-ABC". -/
theorem C8_counterexample :
    isPre ['-'] ['-', 'A', 'B', 'C'] = true
    ∧ canonicalRouteId ['-'] ['-', 'A', 'B', 'C'] = []
    ∧ canonicalRouteId ['-'] ['-', 'A', 'B', 'C'] ≠ ['-', 'A', 'B', 'C'] := by
  decide

/-- The first split token starts its string. -/
theorem isPre_firstTok (d : List Char) :
    ∀ s : List Char, isPre (firstTok d s) s = true := by
  intro s
  induction s with
  | nil => simp [firstTok, isPre]
  | cons c rest ih =>
    by_cases h : isPre d (c :: rest) = true
    · simp [firstTok, h, isPre]
    · simp [firstTok, h, isPre, ih]

/-- The text before the first occurrence of a non-empty separator can
never equal the separator itself: if it did, the separator would occur
right at the scan position, stopping the scan earlier. -/
theorem firstTok_ne (d : List Char) (hd : d ≠ []) :
    ∀ s : List Char, firstTok d s ≠ d := by
  intro s
  induction s with
  | nil =>
    rw [firstTok]
    intro h
    exact hd h.symm
  | cons c rest ih =>
    by_cases h : isPre d (c :: rest) = true
    · rw [firstTok, if_pos h]
      intro he
      exact hd he.symm
    · rw [firstTok, if_neg h]
      intro he
      apply h
      rw [← he]
      simp [isPre, isPre_firstTok d rest]

/-- C8 amended. With a configured (non-empty) delimiter the canonical
route id is ALWAYS the first split token: the source's guard
(`route_id_split[0] == delimiter`) is unsatisfiable, so no raw value —
in particular none starting with the delimiter — is kept unchanged. -/
theorem C8_first_token_always (d s : List Char) (hd : d ≠ []) :
    canonicalRouteId d s = firstTok d s := by
  rw [canonicalRouteId, if_neg (firstTok_ne d hd s)]

/-- Witness for C8 on a concrete id and delimiter. -/
theorem C8_first_token_always_witness :
    canonicalRouteId ['-'] ['A', '-', 'B'] = firstTok ['-'] ['A', '-', 'B'] :=
  C8_first_token_always ['-'] ['A', '-', 'B'] (by decide)

/-- C9 counterexample. A trip-feed timeout during a poll cycle escapes
`update()` as an exception (there is no `try`/`except` on the poll
path) and is not even logged — `requests.get` raises before any log
call — contradicting "logged ... and no unhandled exception escapes";
only the board-retention part of the claim holds. -/
theorem C9_counterexample :
    (pollCycle clk0 prev9 sfOk FetchOutcome.timeout vfOk).escaped
        = some FetchErr.timeout
    ∧ (pollCycle clk0 prev9 sfOk FetchOutcome.timeout vfOk).board = prev9
    ∧ (pollCycle clk0 prev9 sfOk FetchOutcome.timeout vfOk).logs.all
        (fun e => !(isErrorLog e)) = true := by
  decide

/-- C9 amended. Whenever a poll cycle fails — whichever fetch raises —
the exception propagates to the caller and the previously published
board is retained unchanged (`self.info_df` is only assigned at the end
of a fully successful pass). -/
theorem C9_board_retained_on_error (c : Clock) (prev : List ResolvedRow)
    (sf : FetchOutcome StaticRow) (tf : FetchOutcome LiveRow)
    (vf : FetchOutcome VehRow)
    (h : (pollCycle c prev sf tf vf).escaped ≠ none) :
    (pollCycle c prev sf tf vf).board = prev := by
  rcases hs : (get_dataframes sf).2 with e | sched
  · simp [pollCycle, hs]
  · rcases ht : (get_gtfs_feed_entities "trip data" tf).2 with e | live
    · simp [pollCycle, hs, ht]
    · rcases hv : (get_gtfs_feed_entities "vehicle positions" vf).2 with e | veh
      · simp [pollCycle, hs, ht, hv]
      · exfalso
        apply h
        simp [pollCycle, hs, ht, hv]

/-- Witness for C9 on a concrete failing cycle. -/
theorem C9_board_retained_on_error_witness :
    (pollCycle clk0 prev9 sfOk FetchOutcome.timeout vfOk).board = prev9 :=
  C9_board_retained_on_error clk0 prev9 sfOk FetchOutcome.timeout vfOk (by decide)

/-- C10. In the board `_update_route_statuses` publishes, each
`[route][direction][stop]` list of StopDetails is sorted in
non-decreasing `arrival_time`, so the head of any non-empty list is the
earliest upcoming departure (the value the sensor's state reports). -/
theorem C10_stop_lists_sorted (delim : Option String)
    (static_departure_info : String → Int → String → Option Int)
    (vehicle_positions : List (String × VehPos)) (now : Int)
    (trips : List FeedTrip) (route : String) (direction : Int) (stop : String) :
    SortedB leArr
      (update_route_statuses delim static_departure_info vehicle_positions
        now trips route direction stop)
    ∧ (∀ y, (update_route_statuses delim static_departure_info vehicle_positions
          now trips route direction stop).head? = some y →
        ∀ x ∈ update_route_statuses delim static_departure_info vehicle_positions
          now trips route direction stop,
          y.arrival_time ≤ x.arrival_time) := by
  have htot : ∀ a b : StopDetails, leArr a b = false → leArr b a = true := by
    intro a b h
    rw [leArr, decide_eq_false_iff_not, not_le] at h
    rw [leArr, decide_eq_true_eq]
    omega
  have htr : ∀ a b c : StopDetails,
      leArr a b = true → leArr b c = true → leArr a c = true := by
    intro a b c h1 h2
    rw [leArr, decide_eq_true_eq] at h1 h2 ⊢
    omega
  have hsorted : SortedB leArr
      (update_route_statuses delim static_departure_info vehicle_positions
        now trips route direction stop) := by
    rw [update_route_statuses]
    exact sortedB_sortBy leArr htot htr _
  refine ⟨hsorted, ?_⟩
  intro y hy x hx
  cases hl : update_route_statuses delim static_departure_info vehicle_positions
      now trips route direction stop with
  | nil =>
    rw [hl] at hy
    exact absurd hy (by simp)
  | cons a t =>
    rw [hl] at hy hx hsorted
    have hay : a = y := by
      rw [List.head?_cons] at hy
      exact Option.some.inj hy
    subst hay
    rcases List.mem_cons.1 hx with h1 | hx'
    · rw [h1]
    · have := (List.pairwise_cons.1 hsorted).1 x hx'
      rw [leArr, decide_eq_true_eq] at this
      exact this

/-- Witness for C10 on a feed whose two stop entries arrive out of
order: the published list leads with the earlier arrival. -/
theorem C10_stop_lists_sorted_witness :
    (update_route_statuses none lookup0 [] 1700030000 [ft10] "R" 0 "S").head?
        = some sd0
    ∧ sd0.arrival_time ≤ sd1.arrival_time :=
  ⟨by decide,
   (C10_stop_lists_sorted none lookup0 [] 1700030000 [ft10] "R" 0 "S").2
     sd0 (by decide) sd1 (by decide)⟩
